import Mathlib

/-!
Verification of the maintenance-prediction / usage-analytics engine of the
FlotaV fleet-administration application (`src/analytics.py`).

Embedding conventions:
* Tabular frames become lists of structures; a nullable column becomes an
  `Option` field (a pandas `NaN`/`NaT` is `none`).
* Dates are already-parsed day numbers (`Int`); `pd.to_datetime` on the raw
  string columns raises on unparseable input, so every computation below is
  over inputs whose dates parsed.  `diasDesdeCivil` converts a civil
  calendar date to its day number so that concrete scenarios can use real
  dates.
* Numeric columns become `ℚ`.
* A pandas operation that raises inside the function bodies (caught by the
  blanket `except`, which returns an empty frame) is modelled by an
  `Option`-valued row builder: a `none` for any row makes the whole
  function return the empty list.
* Sorting (`sort_values`) is modelled by a stable insertion sort on the
  same keys; pandas string order is code-point lexicographic, modelled by
  `strLtB`.
-/

/-- Code-point comparison of characters, as Python compares strings. -/
def chLt (a b : Char) : Bool := a.toNat < b.toNat

/-- Lexicographic code-point order on character lists. -/
def strLtChars : List Char → List Char → Bool
  | [], [] => false
  | [], _ :: _ => true
  | _ :: _, [] => false
  | a :: as, b :: bs =>
    if chLt a b then true
    else if chLt b a then false
    else strLtChars as bs

/-- Lexicographic code-point order on strings (Python `<` on `str`). -/
def strLtB (a b : String) : Bool := strLtChars a.data b.data

/-- Insert `x` into `l`, placing it before the first element `y` with
`lt x y`; equal-key elements keep their original relative order. -/
def insSorted (lt : α → α → Bool) (x : α) : List α → List α
  | [] => [x]
  | y :: ys => if lt x y then x :: y :: ys else y :: insSorted lt x ys

/-- Stable insertion sort (left fold of `insSorted`), the model of
`DataFrame.sort_values`. -/
def stableSortBy (lt : α → α → Bool) (l : List α) : List α :=
  l.foldl (fun acc x => insSorted lt x acc) []

/-- Insert a string into a sorted duplicate-free list, keeping it sorted
and duplicate-free. -/
def insertUnique (x : String) : List String → List String
  | [] => [x]
  | y :: ys =>
    if strLtB x y then x :: y :: ys
    else if x = y then y :: ys
    else y :: insertUnique x ys

/-- Sorted duplicate-free list of the given strings: the group keys of a
pandas `groupby` (groups are sorted by key). -/
def clavesOrdenadas (l : List String) : List String :=
  l.foldl (fun acc x => insertUnique x acc) []

/-- Row-wise application of a fallible column computation: `some` of all
results when every row succeeds, `none` as soon as one row raises. -/
def buildAll (f : α → Option β) : List α → Option (List β)
  | [] => some []
  | x :: xs =>
    match f x, buildAll f xs with
    | some y, some ys => some (y :: ys)
    | _, _ => none

/-- Day number of a civil (proleptic Gregorian) date, the classical
days-from-civil algorithm specialised to years after 1 AD so that all
divisions are natural-number divisions.  Only differences of day numbers
matter to the analytics code. -/
def diasDesdeCivil (y m d : Nat) : Int :=
  let y' := if m ≤ 2 then y - 1 else y
  let era := y' / 400
  let yoe := y' % 400
  let mp := (m + 9) % 12
  let doy := (153 * mp + 2) / 5 + d - 1
  let doe := yoe * 365 + yoe / 4 - yoe / 100 + doy
  (((era * 146097 + doe : Nat)) : Int) - 719468

/-- Vehicle row (`df_vehiculos`): plate, identity attributes, manufacture
year and current odometer (nullable). -/
structure Vehiculo where
  patente : String
  marca : String
  modelo : String
  tipo : String
  area : String
  anio : Int
  km : Option ℚ
deriving DecidableEq

/-- Service-history row (`df_services`): plate, parsed service date (day
number), odometer at service time (nullable), service type and cost
(nullable). -/
structure Service where
  patente : String
  fecha : Int
  km : Option ℚ
  tipo_service : String
  costo : Option ℚ
deriving DecidableEq

/-- One (date, odometer) observation of `df_km`: the pair of a service record or
the synthetic "today" row built from the current odometer of the vehicle. -/
structure Obs where
  fecha : Int
  km : Option ℚ
deriving DecidableEq

/-- Date order on observations. -/
def obsLt (a b : Obs) : Bool := decide (a.fecha < b.fecha)

/-- Per-plate observation sequence: the service records of the plate plus one
synthetic "today" observation per matching vehicle row, stably sorted by
date — the restriction of the twice-sorted concatenated frame to one
`patente` group. -/
def obsDe (vehiculos : List Vehiculo) (services : List Service) (hoy : Int)
    (p : String) : List Obs :=
  stableSortBy obsLt
    ((services.filter (fun s => s.patente == p)).map (fun s => ⟨s.fecha, s.km⟩)
      ++ (vehiculos.filter (fun v => v.patente == p)).map (fun v => ⟨hoy, v.km⟩))

/-- One shifted row of `df_km`: the observation together with the elapsed
days and odometer delta to the previous observation of the same plate. -/
structure Par where
  fecha : Int
  km : Option ℚ
  dias : Int
  km_recorridos : Option ℚ
deriving DecidableEq

/-- Consecutive-pair rows (`groupby('patente').shift(1)` then the day and
odometer differences); the first row of a group, having no predecessor, is
not produced (it is dropped by the `dropna` anyway). -/
def pares : List Obs → List Par
  | a :: b :: t =>
    ⟨b.fecha, b.km, b.fecha - a.fecha,
      match a.km, b.km with
      | some ka, some kb => some (kb - ka)
      | _, _ => none⟩ :: pares (b :: t)
  | _ => []

/-- A pair row surviving `dropna()` and the `dias > 0` filter, with its
rate `km_recorridos / dias`. -/
structure ParValido where
  fecha : Int
  km : ℚ
  dias : Int
  km_recorridos : ℚ
  km_por_dia : ℚ
deriving DecidableEq

/-- Surviving pair rows: `dropna()` removes rows with a missing odometer
delta (and hence a missing own or previous odometer), then rows with
`dias ≤ 0` are removed, and the per-day rate is computed. -/
def paresValidos (obs : List Obs) : List ParValido :=
  (pares obs).filterMap fun q =>
    match q.km, q.km_recorridos with
    | some k, some kr =>
      if 0 < q.dias then some ⟨q.fecha, k, q.dias, kr, kr / (q.dias : ℚ)⟩ else none
    | _, _ => none

/-- Minimum of the nonempty rate list `x :: xs` (pandas `min` aggregate). -/
def aggMin (x : ℚ) (xs : List ℚ) : ℚ := xs.foldl min x

/-- Maximum of the nonempty rate list `x :: xs` (pandas `max` aggregate). -/
def aggMax (x : ℚ) (xs : List ℚ) : ℚ := xs.foldl max x

/-- Aggregated per-vehicle statistics row of `analizar_km_por_tiempo`:
mean/min/max/count of the per-pair rates, first identity attributes, last
odometer and date among the surviving pair rows, and the estimated annual
distance. -/
structure StatRow where
  patente : String
  km_por_dia_mean : ℚ
  km_por_dia_min : ℚ
  km_por_dia_max : ℚ
  km_por_dia_count : Nat
  marca_first : Option String
  modelo_first : Option String
  area_first : Option String
  tipo_first : Option String
  km_last : ℚ
  fecha_last : Int
  km_anual_estimado : ℚ
deriving DecidableEq

/-- Statistics row of one plate group, `none` when the group has no
surviving pair row (such a plate does not appear in the grouped frame). -/
def statDe (vehiculos : List Vehiculo) (services : List Service) (hoy : Int)
    (p : String) : Option StatRow :=
  match paresValidos (obsDe vehiculos services hoy p) with
  | [] => none
  | q :: qs =>
    let r := q.km_por_dia
    let rs := qs.map (fun x => x.km_por_dia)
    let media := (r + rs.sum) / ((1 + rs.length : Nat) : ℚ)
    let ultimo := qs.getLastD q
    let v := vehiculos.find? (fun v => v.patente == p)
    some
      { patente := p
        km_por_dia_mean := media
        km_por_dia_min := aggMin r rs
        km_por_dia_max := aggMax r rs
        km_por_dia_count := 1 + rs.length
        marca_first := v.map (fun w => w.marca)
        modelo_first := v.map (fun w => w.modelo)
        area_first := v.map (fun w => w.area)
        tipo_first := v.map (fun w => w.tipo)
        km_last := ultimo.km
        fecha_last := ultimo.fecha
        km_anual_estimado := media * 365 }

/-- Descending order on the mean rate (`sort_values('km_por_dia_mean',
ascending=False)`). -/
def statDescLt (a b : StatRow) : Bool := decide (b.km_por_dia_mean < a.km_por_dia_mean)

/-- Embedding of `analizar_km_por_tiempo` (src/analytics.py:26): empty
inputs give an empty frame; otherwise per-plate rate statistics over the
service history extended with the synthetic current-odometer observation,
sorted by mean rate descending. -/
def analizar_km_por_tiempo (vehiculos : List Vehiculo) (services : List Service)
    (hoy : Int) : List StatRow :=
  if vehiculos = [] ∨ services = [] then []
  else
    stableSortBy statDescLt
      ((clavesOrdenadas (services.map (fun s => s.patente)
          ++ vehiculos.map (fun v => v.patente))).filterMap
        (statDe vehiculos services hoy))

/-- Record of the most recent service of a plate: the frame is sorted by
date descending and deduplicated keeping the first row, so a record with
the maximal date survives (among equal dates the kept one is
implementation-defined; the fold keeps the earliest-listed). -/
def ultimoService (services : List Service) (p : String) : Option Service :=
  (services.filter (fun s => s.patente == p)).foldl
    (fun acc s =>
      match acc with
      | none => some s
      | some t => if t.fecha < s.fecha then some s else some t)
    none

/-- Merged `km_ultimo_service` column before the `fillna`: the odometer of
the most recent service record, `none` when the plate has no service record
or the odometer of that record is null. -/
def kmUltimoRaw (services : List Service) (p : String) : Option ℚ :=
  (ultimoService services p).bind (fun s => s.km)

/-- Urgency classification (`np.select` at src/analytics.py:174-181):
first matching condition wins; every comparison with a missing
days-until-service value is false, so a missing value falls through to the
`DESCONOCIDO` default. -/
def clasificarEstado (dias : Option Int) : String :=
  match dias with
  | none => "DESCONOCIDO"
  | some d =>
    if d < 0 then "ATRASADO"
    else if d ≤ 15 then "URGENTE"
    else if d ≤ 30 then "PRÓXIMO"
    else if 30 < d then "PLANIFICADO"
    else "DESCONOCIDO"

/-- Prediction row of `predecir_proximos_mantenimientos`. -/
structure PredRow where
  patente : String
  marca : Option String
  modelo : Option String
  tipo : Option String
  area : Option String
  km_actual : ℚ
  ultima_fecha : Int
  km_por_dia : ℚ
  fecha_ultimo_service : Int
  km_ultimo_service : ℚ
  dias_desde_ultimo_service : Int
  km_desde_ultimo_service : ℚ
  dias_hasta_umbral_km : Int
  fecha_estimada_km : Int
  fecha_estimada_tiempo : Int
  fecha_proximo_service : Int
  dias_hasta_service : Int
  estado : String
deriving DecidableEq

/-- Row computation of the forecaster for one statistics row.  The merged
last-service date falls back to today and the merged last-service odometer
to the current odometer (the two `fillna` calls at src/analytics.py:148-149).
When the mean rate is zero, `(umbral_km - km_desde) / km_por_dia` is
infinite (or NaN), and `np.ceil(...).astype(int)` raises
`Cannot convert non-finite values (NA or inf) to integer`; the raise is
modelled by `none`. -/
def buildPred (services : List Service) (hoy : Int) (umbral_km : ℚ)
    (umbral_dias : Int) (s : StatRow) : Option PredRow :=
  let fecha_us : Int :=
    match ultimoService services s.patente with
    | some u => u.fecha
    | none => hoy
  let km_us : ℚ :=
    match kmUltimoRaw services s.patente with
    | some k => k
    | none => s.km_last
  let km_desde : ℚ := s.km_last - km_us
  if s.km_por_dia_mean = 0 then none
  else
    let bruto : Int := ⌈(umbral_km - km_desde) / s.km_por_dia_mean⌉
    let dias_umbral : Int := if bruto < 0 then 0 else bruto
    let f_km : Int := hoy + dias_umbral
    let f_tiempo : Int := fecha_us + umbral_dias
    let f_prox : Int := min f_km f_tiempo
    some
      { patente := s.patente
        marca := s.marca_first
        modelo := s.modelo_first
        tipo := s.tipo_first
        area := s.area_first
        km_actual := s.km_last
        ultima_fecha := s.fecha_last
        km_por_dia := s.km_por_dia_mean
        fecha_ultimo_service := fecha_us
        km_ultimo_service := km_us
        dias_desde_ultimo_service := hoy - fecha_us
        km_desde_ultimo_service := km_desde
        dias_hasta_umbral_km := dias_umbral
        fecha_estimada_km := f_km
        fecha_estimada_tiempo := f_tiempo
        fecha_proximo_service := f_prox
        dias_hasta_service := f_prox - hoy
        estado := clasificarEstado (some (f_prox - hoy)) }

/-- Final sort key of the forecaster
(`sort_values(['estado', 'dias_hasta_service'])`): the status label string
in code-point order, then days-until-service ascending. -/
def predLt (a b : PredRow) : Bool :=
  strLtB a.estado b.estado
    || (a.estado == b.estado && decide (a.dias_hasta_service < b.dias_hasta_service))

/-- Embedding of `predecir_proximos_mantenimientos` (src/analytics.py:107):
rate statistics, per-row threshold forecasts, urgency classification and
the final sort.  A raise in any row computation is caught by the
blanket `except` of the function, which returns an empty frame. -/
def predecir_proximos_mantenimientos (vehiculos : List Vehiculo)
    (services : List Service) (hoy : Int) (umbral_km : ℚ) (umbral_dias : Int) :
    List PredRow :=
  let stats := analizar_km_por_tiempo vehiculos services hoy
  if stats = [] then []
  else
    match buildAll (buildPred services hoy umbral_km umbral_dias) stats with
    | some rows => stableSortBy predLt rows
    | none => []

/-- Qualifying training record of `crear_modelo_prediccion_costos`: a
service row inner-joined to its vehicle row (plates are unique per the data
model), with positive cost and a non-null odometer (the positive-cost filter followed by the dropna over the cost and
odometer columns; a null cost already fails the positivity comparison). -/
structure RegistroCosto where
  costo : ℚ
  km : ℚ
  marca : String
  tipo : String
  anio : Int
  tipo_service : String
  fecha : Int
deriving DecidableEq

/-- Qualifying rows of the training frame. -/
def registrosValidos (services : List Service) (vehiculos : List Vehiculo) :
    List RegistroCosto :=
  services.filterMap fun s =>
    match vehiculos.find? (fun v => v.patente == s.patente) with
    | none => none
    | some v =>
      match s.costo, s.km with
      | some c, some k =>
        if 0 < c then some ⟨c, k, v.marca, v.tipo, v.anio, s.tipo_service, s.fecha⟩
        else none
      | _, _ => none

/-- Result tuple of the training operation: fitted model, fitted
preprocessor, in-sample R² and a human-readable message. -/
structure ResultadoEntrenamiento (α : Type) where
  modelo : Option α
  preprocesador : Option α
  r2 : ℚ
  mensaje : String
deriving DecidableEq

/-- Success message of the training operation (the original formats the
two numbers to two decimals; only the shape matters here). -/
def mensajeExito (r2 mae : ℚ) : String :=
  "R²: " ++ toString r2 ++ ", Error medio: $" ++ toString mae

/-- Embedding of `crear_modelo_prediccion_costos` (src/analytics.py:192).
The sklearn pipeline fit is opaque to this development and is passed in as
`fit`, returning (model, preprocessor, R², MAE).  The persisted artifact
(the pickled model and column files under the models directory) is modelled
by explicit state passing: the function returns the result tuple together
with the new artifact state, which is written only on the success path. -/
def crear_modelo_prediccion_costos {α : Type}
    (fit : List RegistroCosto → α × α × ℚ × ℚ)
    (services : List Service) (vehiculos : List Vehiculo)
    (almacen : Option α) :
    ResultadoEntrenamiento α × Option α :=
  if services = [] ∨ vehiculos = [] then
    (⟨none, none, 0, "Datos insuficientes"⟩, almacen)
  else
    let df := registrosValidos services vehiculos
    if df.length < 10 then
      (⟨none, none, 0, "Datos insuficientes (mínimo 10 registros)"⟩, almacen)
    else
      let (m, pre, r2, mae) := fit df
      (⟨some m, some pre, r2, mensajeExito r2 mae⟩, some m)

/-- Vehicle-attribute dictionary passed to `predecir_costo_service`; the
`.get` calls default a missing make and type to the empty string and a
missing year to 2020. -/
structure AtributosVehiculo where
  marca : Option String
  tipo : Option String
  anio : Option Int
deriving DecidableEq

/-- Fitted cost pipeline. Modelled from the spec for the sklearn internals
(the configuration — median/most-frequent imputation, standardization,
one-hot encoding ignoring unknown categories, ridge regression — is in
src/analytics.py:229-249, but the fitted transform itself lives in
sklearn): fitted per-category lists for the three categorical features,
fitted centers and scales for the three numeric features, and the ridge
coefficients and intercept. -/
structure ModeloCostos where
  categoriasMarca : List String
  categoriasTipo : List String
  categoriasTipoService : List String
  centros : List ℚ
  escalas : List ℚ
  coefs : List ℚ
  intercepto : ℚ
deriving DecidableEq

/-- One-hot encoding of one categorical value against the fitted category
list; a category never seen during training matches no column and encodes
as the all-zero vector (the encoder is configured to ignore unknown
categories), never an error. -/
def oneHot (categorias : List String) (x : String) : List ℚ :=
  categorias.map (fun c => if c = x then 1 else 0)

/-- Standardization of one numeric value; sklearn replaces a zero fitted
scale by one. -/
def escalar (centro escala x : ℚ) : ℚ :=
  (x - centro) / (if escala = 0 then 1 else escala)

/-- Dot product of the coefficient vector with the feature vector. -/
def productoPunto : List ℚ → List ℚ → ℚ
  | a :: as, b :: bs => a * b + productoPunto as bs
  | _, _ => 0

/-- Modelled from the spec: prediction of the fitted pipeline on one row —
standardized numeric features (odometer, year, age-in-days) followed by the
one-hot blocks for make, vehicle type and service type, fed to the linear
ridge model.  The row built at prediction time has no missing values, so
the fitted imputers are the identity on it. -/
def pipelinePredict (m : ModeloCostos) (km anio antiguedad : ℚ)
    (marca tipo tipo_service : String) : ℚ :=
  let numericas := [escalar (m.centros.getD 0 0) (m.escalas.getD 0 1) km,
                    escalar (m.centros.getD 1 0) (m.escalas.getD 1 1) anio,
                    escalar (m.centros.getD 2 0) (m.escalas.getD 2 1) antiguedad]
  let caracteristicas := numericas ++ oneHot m.categoriasMarca marca
      ++ oneHot m.categoriasTipo tipo ++ oneHot m.categoriasTipoService tipo_service
  m.intercepto + productoPunto m.coefs caracteristicas

/-- Rounding to two decimal places (Python `round(x, 2)`; the tie-breaking
of the float rounding differs only at exact half-cents). -/
def redondear2 (x : ℚ) : ℚ := ((round (x * 100) : ℤ) : ℚ) / 100

/-- Embedding of `predecir_costo_service` (src/analytics.py:286): when no
persisted artifact exists the call returns `None`; otherwise the loaded
pipeline is applied to the single constructed row (age-in-days 0, defaulted
attributes) and the result is floored at zero and rounded to two decimal
places. -/
def predecir_costo_service (almacen : Option ModeloCostos)
    (vehiculo : AtributosVehiculo) (km : ℚ) (tipo_service : String) : Option ℚ :=
  match almacen with
  | none => none
  | some m =>
    let bruto := pipelinePredict m km ((vehiculo.anio.getD 2020 : Int) : ℚ) 0
      (vehiculo.marca.getD "") (vehiculo.tipo.getD "") tipo_service
    some (max 0 (redondear2 bruto))

/-! Concrete inputs used by the scenario theorems, witnesses and
counterexamples. -/

/-- Scenario A vehicle: current odometer 14000. -/
def vehX : Vehiculo := ⟨"X", "Ford", "Ranger", "camioneta", "obras", 2020, some 14000⟩

/-- Scenario A service records: (2024-01-01, 10000) and (2024-07-01, 13000). -/
def servsX : List Service :=
  [⟨"X", diasDesdeCivil 2024 1 1, some 10000, "completo", some 100⟩,
   ⟨"X", diasDesdeCivil 2024 7 1, some 13000, "completo", some 100⟩]

/-- Scenario A "today": 2024-10-01. -/
def hoyX : Int := diasDesdeCivil 2024 10 1

/-- First statistics row of the Scenario A analysis. -/
def statEjemplo : StatRow :=
  (analizar_km_por_tiempo [vehX] servsX hoyX).headD
    ⟨"", 0, 0, 0, 0, none, none, none, none, 0, 0, 0⟩

/-- First prediction row of the Scenario A forecast with the default
thresholds. -/
def predEjemplo : PredRow :=
  (predecir_proximos_mantenimientos [vehX] servsX hoyX 5000 180).headD
    ⟨"", none, none, none, none, 0, 0, 1, 0, 0, 0, 0, 0, 0, 0, 0, 0, ""⟩

/-- Sorting counterexample fleet: vehicle U becomes URGENTE (last service
170 days before today 300, 10 days short of the 180-day threshold) and
vehicle P becomes PLANIFICADO (last service 10 days before today). -/
def vehsOrden : List Vehiculo :=
  [⟨"P", "Fiat", "Cronos", "auto", "salud", 2021, some 3000⟩,
   ⟨"U", "Fiat", "Cronos", "auto", "salud", 2021, some 3000⟩]

/-- Service records of the sorting counterexample. -/
def servsOrden : List Service :=
  [⟨"U", 0, some 0, "completo", some 100⟩,
   ⟨"U", 130, some 1300, "completo", some 100⟩,
   ⟨"P", 0, some 0, "completo", some 100⟩,
   ⟨"P", 290, some 2900, "completo", some 100⟩]

/-- Zero-rate fleet: vehicle A accumulated no distance between its two
services and up to today, so its mean rate is 0; vehicle B is an ordinary
vehicle with a positive rate. -/
def vehsTasaCero : List Vehiculo :=
  [⟨"A", "Fiat", "Uno", "auto", "salud", 2015, some 1000⟩,
   ⟨"B", "Ford", "Ka", "auto", "salud", 2018, some 2000⟩]

/-- Service records of the zero-rate fleet. -/
def servsTasaCero : List Service :=
  [⟨"A", 0, some 1000, "completo", some 100⟩,
   ⟨"A", 100, some 1000, "completo", some 100⟩,
   ⟨"B", 0, some 0, "completo", some 100⟩,
   ⟨"B", 100, some 1000, "completo", some 100⟩]

/-- Fallback counterexample vehicle. -/
def vehNulo : Vehiculo := ⟨"N", "Ford", "Ka", "auto", "salud", 2018, some 3000⟩

/-- Fallback counterexample services: one surviving rate pair (day 0 to day
100), and a most recent service (day 150) whose odometer is null. -/
def servsNulo : List Service :=
  [⟨"N", 0, some 1000, "completo", some 100⟩,
   ⟨"N", 100, some 2000, "completo", some 100⟩,
   ⟨"N", 150, none, "completo", some 100⟩]

/-- Training vehicle for the insufficient-data witness. -/
def vehCosto : Vehiculo := ⟨"C", "Ford", "Ka", "auto", "salud", 2018, some 9000⟩

/-- Exactly nine qualifying training records (positive cost, non-null
odometer, joined to vehicle `C`). -/
def servsCosto9 : List Service :=
  (List.range 9).map (fun i => ⟨"C", (i : Int) * 30, some ((i : ℚ) * 1000), "completo", some 50⟩)

/-- Empty fitted cost model used by the prediction witness: every category
is unseen for it. -/
def modeloVacio : ModeloCostos := ⟨[], [], [], [], [], [], 5⟩

/-! Helper lemmas. -/

theorem mem_insSorted {lt : α → α → Bool} {x y : α} {l : List α}
    (h : y ∈ insSorted lt x l) : y = x ∨ y ∈ l := by
  induction l with
  | nil => simpa [insSorted] using h
  | cons z zs ih =>
    simp only [insSorted] at h
    split at h
    · rcases List.mem_cons.mp h with h | h
      · exact Or.inl h
      · exact Or.inr h
    · rcases List.mem_cons.mp h with h | h
      · exact Or.inr (List.mem_cons.mpr (Or.inl h))
      · rcases ih h with h | h
        · exact Or.inl h
        · exact Or.inr (List.mem_cons.mpr (Or.inr h))

theorem mem_foldl_insSorted {lt : α → α → Bool} {y : α} :
    ∀ (l acc : List α), y ∈ l.foldl (fun a x => insSorted lt x a) acc →
      y ∈ acc ∨ y ∈ l := by
  intro l
  induction l with
  | nil => intro acc h; exact Or.inl h
  | cons z zs ih =>
    intro acc h
    rcases ih (insSorted lt z acc) h with h | h
    · rcases mem_insSorted h with h | h
      · exact Or.inr (List.mem_cons.mpr (Or.inl h))
      · exact Or.inl h
    · exact Or.inr (List.mem_cons.mpr (Or.inr h))

theorem mem_stableSortBy {lt : α → α → Bool} {y : α} {l : List α}
    (h : y ∈ stableSortBy lt l) : y ∈ l := by
  rcases mem_foldl_insSorted l [] h with h | h
  · cases h
  · exact h

theorem buildAll_mem {f : α → Option β} {y : β} :
    ∀ {l : List α} {ys : List β}, buildAll f l = some ys → y ∈ ys →
      ∃ x ∈ l, f x = some y := by
  intro l
  induction l with
  | nil =>
    intro ys h hy
    simp only [buildAll] at h
    cases h
    cases hy
  | cons x xs ih =>
    intro ys h hy
    simp only [buildAll] at h
    cases hfx : f x with
    | none => rw [hfx] at h; cases h
    | some z =>
      rw [hfx] at h
      cases hxs : buildAll f xs with
      | none => rw [hxs] at h; cases h
      | some zs =>
        rw [hxs] at h
        cases h
        rcases List.mem_cons.mp hy with hy | hy
        · exact ⟨x, List.mem_cons_self _ _, hy ▸ hfx⟩
        · rcases ih hxs hy with ⟨w, hw, hfw⟩
          exact ⟨w, List.mem_cons_of_mem _ hw, hfw⟩

theorem aggMin_le_init (x : ℚ) (xs : List ℚ) : aggMin x xs ≤ x := by
  induction xs generalizing x with
  | nil => exact le_refl x
  | cons y ys ih => exact le_trans (ih (min x y)) (min_le_left x y)

theorem init_le_aggMax (x : ℚ) (xs : List ℚ) : x ≤ aggMax x xs := by
  induction xs generalizing x with
  | nil => exact le_refl x
  | cons y ys ih => exact le_trans (le_max_left x y) (ih (max x y))

theorem aggMin_mul_card_le (x : ℚ) (xs : List ℚ) :
    aggMin x xs * ((1 + xs.length : Nat) : ℚ) ≤ x + xs.sum := by
  induction xs generalizing x with
  | nil => simp [aggMin]
  | cons y ys ih =>
    have hm : aggMin x (y :: ys) = aggMin (min x y) ys := rfl
    have h1 := ih (min x y)
    have h2 := aggMin_le_init (min x y) ys
    have h3 : min x y ≤ x := min_le_left x y
    have h4 : min x y ≤ y := min_le_right x y
    rw [hm]
    have hc : ((1 + (y :: ys).length : Nat) : ℚ) = ((1 + ys.length : Nat) : ℚ) + 1 := by
      push_cast [List.length_cons]
      ring
    rw [hc]
    have he : aggMin (min x y) ys * (((1 + ys.length : Nat) : ℚ) + 1)
        = aggMin (min x y) ys * ((1 + ys.length : Nat) : ℚ) + aggMin (min x y) ys := by
      ring
    rw [he, List.sum_cons]
    linarith

theorem sum_le_aggMax_mul_card (x : ℚ) (xs : List ℚ) :
    x + xs.sum ≤ aggMax x xs * ((1 + xs.length : Nat) : ℚ) := by
  induction xs generalizing x with
  | nil => simp [aggMax]
  | cons y ys ih =>
    have hm : aggMax x (y :: ys) = aggMax (max x y) ys := rfl
    have h1 := ih (max x y)
    have h2 := init_le_aggMax (max x y) ys
    have h3 : x ≤ max x y := le_max_left x y
    have h4 : y ≤ max x y := le_max_right x y
    rw [hm]
    have hc : ((1 + (y :: ys).length : Nat) : ℚ) = ((1 + ys.length : Nat) : ℚ) + 1 := by
      push_cast [List.length_cons]
      ring
    rw [hc]
    have he : aggMax (max x y) ys * (((1 + ys.length : Nat) : ℚ) + 1)
        = aggMax (max x y) ys * ((1 + ys.length : Nat) : ℚ) + aggMax (max x y) ys := by
      ring
    rw [he, List.sum_cons]
    linarith

theorem mem_analizar {vehiculos : List Vehiculo} {services : List Service}
    {hoy : Int} {st : StatRow}
    (h : st ∈ analizar_km_por_tiempo vehiculos services hoy) :
    ∃ p, statDe vehiculos services hoy p = some st := by
  unfold analizar_km_por_tiempo at h
  split at h
  · cases h
  · rcases List.mem_filterMap.mp (mem_stableSortBy h) with ⟨p, _, hp⟩
    exact ⟨p, hp⟩

theorem statDe_inv {vehiculos : List Vehiculo} {services : List Service}
    {hoy : Int} {p : String} {st : StatRow}
    (h : statDe vehiculos services hoy p = some st) :
    ∃ q qs, paresValidos (obsDe vehiculos services hoy p) = q :: qs
      ∧ st.patente = p
      ∧ st.km_por_dia_mean
          = (q.km_por_dia + (qs.map (fun x => x.km_por_dia)).sum)
            / ((1 + (qs.map (fun x => x.km_por_dia)).length : Nat) : ℚ)
      ∧ st.km_por_dia_min = aggMin q.km_por_dia (qs.map (fun x => x.km_por_dia))
      ∧ st.km_por_dia_max = aggMax q.km_por_dia (qs.map (fun x => x.km_por_dia)) := by
  unfold statDe at h
  split at h
  · cases h
  · next q qs heq =>
    cases h
    exact ⟨q, qs, heq, rfl, rfl, rfl, rfl⟩

theorem mem_predecir {vehiculos : List Vehiculo} {services : List Service}
    {hoy : Int} {umbral_km : ℚ} {umbral_dias : Int} {r : PredRow}
    (h : r ∈ predecir_proximos_mantenimientos vehiculos services hoy umbral_km umbral_dias) :
    ∃ st ∈ analizar_km_por_tiempo vehiculos services hoy,
      buildPred services hoy umbral_km umbral_dias st = some r := by
  simp only [predecir_proximos_mantenimientos] at h
  split at h
  · cases h
  · split at h
    · next rows hrows => exact buildAll_mem hrows (mem_stableSortBy h)
    · cases h

theorem buildPred_inv {services : List Service} {hoy : Int} {umbral_km : ℚ}
    {umbral_dias : Int} {st : StatRow} {r : PredRow}
    (h : buildPred services hoy umbral_km umbral_dias st = some r) :
    st.km_por_dia_mean ≠ 0
    ∧ r.patente = st.patente
    ∧ r.km_por_dia = st.km_por_dia_mean
    ∧ r.dias_hasta_umbral_km
        = (if (⌈(umbral_km - r.km_desde_ultimo_service) / r.km_por_dia⌉ : Int) < 0
            then 0
            else ⌈(umbral_km - r.km_desde_ultimo_service) / r.km_por_dia⌉)
    ∧ r.fecha_estimada_km = hoy + r.dias_hasta_umbral_km
    ∧ r.fecha_estimada_tiempo = r.fecha_ultimo_service + umbral_dias
    ∧ r.fecha_proximo_service = min r.fecha_estimada_km r.fecha_estimada_tiempo
    ∧ r.dias_hasta_service = r.fecha_proximo_service - hoy := by
  by_cases hm : st.km_por_dia_mean = 0
  · simp only [buildPred, if_pos hm] at h
    cases h
  · simp only [buildPred, if_neg hm] at h
    injection h with h
    subst h
    exact ⟨hm, rfl, rfl, rfl, rfl, rfl, rfl, rfl⟩

theorem pares_dias_cero {c : Int} :
    ∀ {obs : List Obs}, (∀ o ∈ obs, o.fecha = c) →
      ∀ q ∈ pares obs, q.dias = 0 := by
  intro obs
  induction obs with
  | nil => intro _ q hq; cases hq
  | cons a t ih =>
    intro hobs q hq
    match t, hq with
    | b :: t', hq =>
      rcases List.mem_cons.mp hq with hq | hq
      · subst hq
        have ha : a.fecha = c := hobs a (List.mem_cons_self _ _)
        have hb : b.fecha = c := hobs b (List.mem_cons_of_mem _ (List.mem_cons_self _ _))
        simp [ha, hb]
      · exact ih (fun o ho => hobs o (List.mem_cons_of_mem _ ho)) q hq

theorem paresValidos_nil_de_fecha_constante {c : Int} {obs : List Obs}
    (h : ∀ o ∈ obs, o.fecha = c) : paresValidos obs = [] := by
  unfold paresValidos
  rw [List.filterMap_eq_nil_iff]
  intro q hq
  have hd : q.dias = 0 := pares_dias_cero h q hq
  cases hkm : q.km with
  | none => rfl
  | some k =>
    cases hkr : q.km_recorridos with
    | none => rfl
    | some kr => simp [hd]

theorem ultimoService_some {services : List Service} {p : String} {s : Service}
    (hs : s ∈ services) (hp : s.patente = p) :
    ∃ u, ultimoService services p = some u := by
  have hmem : s ∈ services.filter (fun t => t.patente == p) :=
    List.mem_filter.mpr ⟨hs, by simp [hp]⟩
  unfold ultimoService
  rcases hfil : services.filter (fun t => t.patente == p) with _ | ⟨x, xs⟩
  · rw [hfil] at hmem; cases hmem
  · rw [hfil]
    have hsome : ∀ (l : List Service) (t : Service),
        ∃ u, l.foldl (fun acc s =>
          match acc with
          | none => some s
          | some t' => if t'.fecha < s.fecha then some s else some t') (some t) = some u := by
      intro l
      induction l with
      | nil => intro t; exact ⟨t, rfl⟩
      | cons z zs ih =>
        intro t
        simp only [List.foldl_cons]
        split
        · exact ih z
        · exact ih t
    simp only [List.foldl_cons]
    exact hsome xs x

theorem statDe_tiene_service {vehiculos : List Vehiculo} {services : List Service}
    {hoy : Int} {p : String} {st : StatRow}
    (h : statDe vehiculos services hoy p = some st) :
    ∃ s ∈ services, s.patente = p := by
  rcases statDe_inv h with ⟨q, qs, heq, -, -, -, -⟩
  by_contra hno
  push_neg at hno
  have hfil : services.filter (fun s => s.patente == p) = [] := by
    rw [List.filter_eq_nil_iff]
    intro s hs
    simp [hno s hs]
  have hconst : ∀ o ∈ obsDe vehiculos services hoy p, o.fecha = hoy := by
    intro o ho
    have ho' := mem_stableSortBy (by simpa [obsDe, hfil] using ho)
    rcases List.mem_map.mp ho' with ⟨v, -, hv⟩
    rw [← hv]
  rw [paresValidos_nil_de_fecha_constante hconst] at heq
  cases heq

theorem oneHot_no_vista (categorias : List String) (x : String)
    (h : x ∉ categorias) :
    oneHot categorias x = List.replicate categorias.length 0 := by
  induction categorias with
  | nil => rfl
  | cons c cs ih =>
    have hcx : ¬ (c = x) := fun hc => h (by rw [← hc]; exact List.mem_cons_self c cs)
    simp only [oneHot, List.map_cons, List.length_cons, List.replicate_succ, if_neg hcx]
    have hr := ih (fun hm => h (List.mem_cons_of_mem _ hm))
    simp only [oneHot] at hr
    rw [hr]

/-! Claim theorems. -/

unseal Rat.mul Rat.add Rat.sub Rat.inv in
/-- Claim C1 (code bug, evaluated at the failing input): the final
`sort_values(['estado', 'dias_hasta_service'])` sorts by the status label
string, whose code-point order is ATRASADO < PLANIFICADO < PRÓXIMO <
URGENTE, not by urgency rank.  On the fleet `vehsOrden` — where vehicle U
is 10 days from its time threshold (URGENTE) and vehicle P is 170 days
away (PLANIFICADO) — the forecaster returns the PLANIFICADO row before the
URGENTE row, contradicting the claimed most-urgent-first order. -/
theorem c1_orden_por_etiqueta_no_por_urgencia :
    (predecir_proximos_mantenimientos vehsOrden servsOrden 300 5000 180).map
        (fun r => (r.patente, r.estado, r.dias_hasta_service))
      = [("P", "PLANIFICADO", 170), ("U", "URGENTE", 10)] := by
  decide

unseal Rat.mul Rat.add Rat.sub Rat.inv in
/-- Claim C2 (code bug, evaluated at the failing input): on the fleet
`vehsTasaCero`, vehicle A has valid observation pairs with zero accumulated
distance (mean rate 0) and vehicle B has mean rate 10, yet the forecaster
returns the empty list: the division by the zero mean rate produces a
non-finite value, `np.ceil(...).astype(int)` raises, and the blanket
`except` discards the predictions of every vehicle instead of falling back to the
time-based threshold for A and keeping B. -/
theorem c2_tasa_cero_descarta_todo :
    ((analizar_km_por_tiempo vehsTasaCero servsTasaCero 200).map
        (fun r => (r.patente, r.km_por_dia_mean)) = [("B", 10), ("A", 0)])
    ∧ predecir_proximos_mantenimientos vehsTasaCero servsTasaCero 200 5000 180 = [] := by
  decide

/-- Claim C3: with fewer than 10 qualifying records (inner join to a
vehicle row, positive cost, non-null odometer) the training operation
returns a failure tuple with no model and an insufficient-data message, and
the persisted artifact state is returned unchanged. -/
theorem c3_umbral_minimo_entrenamiento {α : Type}
    (fit : List RegistroCosto → α × α × ℚ × ℚ) (services : List Service)
    (vehiculos : List Vehiculo) (almacen : Option α)
    (h : (registrosValidos services vehiculos).length < 10) :
    (crear_modelo_prediccion_costos fit services vehiculos almacen).1.modelo = none
    ∧ (crear_modelo_prediccion_costos fit services vehiculos almacen).2 = almacen
    ∧ ((crear_modelo_prediccion_costos fit services vehiculos almacen).1.mensaje
          = "Datos insuficientes"
      ∨ (crear_modelo_prediccion_costos fit services vehiculos almacen).1.mensaje
          = "Datos insuficientes (mínimo 10 registros)") := by
  unfold crear_modelo_prediccion_costos
  split
  · exact ⟨rfl, rfl, Or.inl rfl⟩
  · rw [if_pos h]
    exact ⟨rfl, rfl, Or.inr rfl⟩

unseal Rat.mul Rat.add Rat.sub Rat.inv in
/-- Witness for C3: training on exactly 9 qualifying records fails with the
insufficient-data message and leaves the previously persisted artifact
untouched. -/
theorem c3_testigo_nueve_registros :
    (registrosValidos servsCosto9 [vehCosto]).length = 9
    ∧ ((crear_modelo_prediccion_costos (fun _ => ((), (), 0, 0)) servsCosto9
          [vehCosto] (some ())).1.modelo = none
      ∧ (crear_modelo_prediccion_costos (fun _ => ((), (), 0, 0)) servsCosto9
          [vehCosto] (some ())).2 = some ()
      ∧ ((crear_modelo_prediccion_costos (fun _ => ((), (), 0, 0)) servsCosto9
            [vehCosto] (some ())).1.mensaje = "Datos insuficientes"
        ∨ (crear_modelo_prediccion_costos (fun _ => ((), (), 0, 0)) servsCosto9
            [vehCosto] (some ())).1.mensaje
            = "Datos insuficientes (mínimo 10 registros)")) :=
  ⟨by decide,
    c3_umbral_minimo_entrenamiento (fun _ => ((), (), 0, 0)) servsCosto9
      [vehCosto] (some ()) (by decide)⟩

/-- Claim C4: for every finite days-until-service value exactly one of the
four urgency bands holds and the classifier assigns the matching label (the
four indicator terms always sum to one), while the DESCONOCIDO label is
produced for a missing value. -/
theorem c4_particion_urgencia (d : Int) :
    ((d < 0 ∧ clasificarEstado (some d) = "ATRASADO")
      ∨ (0 ≤ d ∧ d ≤ 15 ∧ clasificarEstado (some d) = "URGENTE")
      ∨ (15 < d ∧ d ≤ 30 ∧ clasificarEstado (some d) = "PRÓXIMO")
      ∨ (30 < d ∧ clasificarEstado (some d) = "PLANIFICADO"))
    ∧ ((if d < 0 then 1 else 0) + (if 0 ≤ d ∧ d ≤ 15 then 1 else 0)
        + (if 15 < d ∧ d ≤ 30 then 1 else 0) + (if 30 < d then 1 else 0) = (1 : Nat))
    ∧ clasificarEstado none = "DESCONOCIDO" := by
  refine ⟨?_, by split_ifs <;> omega, rfl⟩
  rcases lt_or_le d 0 with h1 | h1
  · exact Or.inl ⟨h1, by simp [clasificarEstado, h1]⟩
  · rcases le_or_lt d 15 with h2 | h2
    · exact Or.inr (Or.inl ⟨h1, h2, by
        simp [clasificarEstado, not_lt.mpr h1, h2]⟩)
    · rcases le_or_lt d 30 with h3 | h3
      · exact Or.inr (Or.inr (Or.inl ⟨h2, h3, by
          simp [clasificarEstado, not_lt.mpr h1, not_le.mpr h2, h3]⟩))
      · exact Or.inr (Or.inr (Or.inr ⟨h3, by
          simp [clasificarEstado, not_lt.mpr h1, not_le.mpr h2, not_le.mpr h3, h3]⟩))

/-- Witness for C4 at a concrete value. -/
theorem c4_testigo : clasificarEstado none = "DESCONOCIDO" :=
  (c4_particion_urgencia 0).2.2

/-- Claim C5: every produced prediction row has its combined
next-service date equal to the minimum of the distance-based and the
time-based predicted dates, hence never later than either. -/
theorem c5_dominancia_umbral (vehiculos : List Vehiculo) (services : List Service)
    (hoy : Int) (umbral_km : ℚ) (umbral_dias : Int) (r : PredRow)
    (h : r ∈ predecir_proximos_mantenimientos vehiculos services hoy umbral_km umbral_dias) :
    r.fecha_proximo_service = min r.fecha_estimada_km r.fecha_estimada_tiempo
    ∧ r.fecha_proximo_service ≤ r.fecha_estimada_km
    ∧ r.fecha_proximo_service ≤ r.fecha_estimada_tiempo := by
  rcases mem_predecir h with ⟨st, -, hb⟩
  rcases buildPred_inv hb with ⟨-, -, -, -, -, -, hmin, -⟩
  exact ⟨hmin, hmin ▸ min_le_left _ _, hmin ▸ min_le_right _ _⟩

unseal Rat.mul Rat.add Rat.sub Rat.inv in
/-- Witness for C5 on the Scenario A fleet. -/
theorem c5_testigo :
    predEjemplo.fecha_proximo_service
        = min predEjemplo.fecha_estimada_km predEjemplo.fecha_estimada_tiempo
    ∧ predEjemplo.fecha_proximo_service ≤ predEjemplo.fecha_estimada_km
    ∧ predEjemplo.fecha_proximo_service ≤ predEjemplo.fecha_estimada_tiempo :=
  c5_dominancia_umbral [vehX] servsX hoyX 5000 180 predEjemplo (by decide)

unseal Rat.mul Rat.add Rat.sub Rat.inv in
/-- Claim C6 (Scenario A): with service records (2024-01-01, 10000) and
(2024-07-01, 13000), current odometer 14000 and today 2024-10-01, the
estimator produces exactly one row for the vehicle, with per-pair elapsed
days 182 and 92, per-pair rates 3000/182 and 1000/92, mean rate the
arithmetic mean of the two rates, pair count 2, and estimated annual
distance the mean rate times 365. -/
theorem c6_escenario_a :
    (diasDesdeCivil 2024 7 1 - diasDesdeCivil 2024 1 1 = 182)
    ∧ (diasDesdeCivil 2024 10 1 - diasDesdeCivil 2024 7 1 = 92)
    ∧ ((paresValidos (obsDe [vehX] servsX hoyX "X")).map
        (fun q => (q.dias, q.km_por_dia))
        = [(182, (3000 : ℚ) / 182), (92, (1000 : ℚ) / 92)])
    ∧ ((analizar_km_por_tiempo [vehX] servsX hoyX).map
        (fun r => (r.patente, r.km_por_dia_mean, r.km_por_dia_count, r.km_anual_estimado))
        = [("X", ((3000 : ℚ) / 182 + 1000 / 92) / 2, 2,
            (((3000 : ℚ) / 182 + 1000 / 92) / 2) * 365)]) := by
  decide

/-- Claim C7: in every produced prediction row with a positive mean rate,
the days-until-distance-threshold equal the clamped ceiling
max(0, ceil((threshold - distance-since-last-service) / mean-rate)) and
are never negative. -/
theorem c7_pronostico_no_negativo (vehiculos : List Vehiculo)
    (services : List Service) (hoy : Int) (umbral_km : ℚ) (umbral_dias : Int)
    (r : PredRow)
    (h : r ∈ predecir_proximos_mantenimientos vehiculos services hoy umbral_km umbral_dias)
    (_hpos : 0 < r.km_por_dia) :
    r.dias_hasta_umbral_km
        = max 0 ⌈(umbral_km - r.km_desde_ultimo_service) / r.km_por_dia⌉
    ∧ 0 ≤ r.dias_hasta_umbral_km := by
  rcases mem_predecir h with ⟨st, -, hb⟩
  rcases buildPred_inv hb with ⟨-, -, -, hd, -, -, -, -⟩
  constructor
  · rw [hd]
    rcases lt_or_le (⌈(umbral_km - r.km_desde_ultimo_service) / r.km_por_dia⌉ : Int) 0
      with hc | hc
    · rw [if_pos hc, max_eq_left (le_of_lt hc)]
    · rw [if_neg (not_lt.mpr hc), max_eq_right hc]
  · rw [hd]
    split
    · exact le_refl 0
    · next hc => exact not_lt.mp hc

unseal Rat.mul Rat.add Rat.sub Rat.inv in
/-- Witness for C7 on the Scenario A fleet. -/
theorem c7_testigo :
    predEjemplo.dias_hasta_umbral_km
        = max 0 ⌈((5000 : ℚ) - predEjemplo.km_desde_ultimo_service) / predEjemplo.km_por_dia⌉
    ∧ 0 ≤ predEjemplo.dias_hasta_umbral_km :=
  c7_pronostico_no_negativo [vehX] servsX hoyX 5000 180 predEjemplo
    (by decide) (by decide)

/-- Claim C8: whenever a trained artifact exists, cost prediction returns a
defined value that is non-negative and an integer number of cents (rounded
to two decimal places), for every attribute input; and a make, vehicle type
or service type never seen during training one-hot encodes to the all-zero
vector, so the call never fails on it. -/
theorem c8_costo_no_negativo (m : ModeloCostos) (v : AtributosVehiculo)
    (km : ℚ) (tipo_service : String) :
    (∃ c : ℚ, predecir_costo_service (some m) v km tipo_service = some c
        ∧ 0 ≤ c ∧ ∃ n : ℤ, c = (n : ℚ) / 100)
    ∧ (v.marca.getD "" ∉ m.categoriasMarca →
        oneHot m.categoriasMarca (v.marca.getD "")
          = List.replicate m.categoriasMarca.length 0)
    ∧ (v.tipo.getD "" ∉ m.categoriasTipo →
        oneHot m.categoriasTipo (v.tipo.getD "")
          = List.replicate m.categoriasTipo.length 0)
    ∧ (tipo_service ∉ m.categoriasTipoService →
        oneHot m.categoriasTipoService tipo_service
          = List.replicate m.categoriasTipoService.length 0) := by
  refine ⟨?_, oneHot_no_vista _ _, oneHot_no_vista _ _, oneHot_no_vista _ _⟩
  refine ⟨_, rfl, le_max_left _ _, ?_⟩
  rcases le_total (redondear2 (pipelinePredict m km ((v.anio.getD 2020 : Int) : ℚ) 0
      (v.marca.getD "") (v.tipo.getD "") tipo_service)) 0 with hr | hr
  · exact ⟨0, by rw [max_eq_left hr]; norm_num⟩
  · exact ⟨round (pipelinePredict m km ((v.anio.getD 2020 : Int) : ℚ) 0
      (v.marca.getD "") (v.tipo.getD "") tipo_service * 100),
      by rw [max_eq_right hr]; rfl⟩

/-- Witness for C8: the empty fitted model has seen no category, so every
input attribute is unseen, yet prediction returns a defined, non-negative
cent-valued amount. -/
theorem c8_testigo :
    (∃ c : ℚ, predecir_costo_service (some modeloVacio) ⟨none, none, none⟩ 100 "nuevo"
        = some c ∧ 0 ≤ c ∧ ∃ n : ℤ, c = (n : ℚ) / 100)
    ∧ oneHot modeloVacio.categoriasMarca "" = List.replicate modeloVacio.categoriasMarca.length 0
    ∧ oneHot modeloVacio.categoriasTipo "" = List.replicate modeloVacio.categoriasTipo.length 0
    ∧ oneHot modeloVacio.categoriasTipoService "nuevo"
        = List.replicate modeloVacio.categoriasTipoService.length 0 := by
  obtain ⟨h1, h2, h3, h4⟩ := c8_costo_no_negativo modeloVacio ⟨none, none, none⟩ 100 "nuevo"
  exact ⟨h1, h2 (by decide), h3 (by decide), h4 (by decide)⟩

/-- Claim C9: in every row produced by the estimator the reported mean
rate lies between the reported minimum and maximum rates, inclusive. -/
theorem c9_media_entre_min_max (vehiculos : List Vehiculo)
    (services : List Service) (hoy : Int) (r : StatRow)
    (h : r ∈ analizar_km_por_tiempo vehiculos services hoy) :
    r.km_por_dia_min ≤ r.km_por_dia_mean
    ∧ r.km_por_dia_mean ≤ r.km_por_dia_max := by
  rcases mem_analizar h with ⟨p, hp⟩
  rcases statDe_inv hp with ⟨q, qs, -, -, hmean, hmin, hmax⟩
  have hc : (0 : ℚ) < ((1 + (qs.map (fun x => x.km_por_dia)).length : Nat) : ℚ) :=
    Nat.cast_pos.mpr (by omega)
  constructor
  · rw [hmin, hmean, le_div_iff₀ hc]
    exact aggMin_mul_card_le q.km_por_dia (qs.map (fun x => x.km_por_dia))
  · rw [hmean, hmax, div_le_iff₀ hc]
    exact sum_le_aggMax_mul_card q.km_por_dia (qs.map (fun x => x.km_por_dia))

unseal Rat.mul Rat.add Rat.sub Rat.inv in
/-- Witness for C9 on the Scenario A fleet. -/
theorem c9_testigo :
    statEjemplo.km_por_dia_min ≤ statEjemplo.km_por_dia_mean
    ∧ statEjemplo.km_por_dia_mean ≤ statEjemplo.km_por_dia_max :=
  c9_media_entre_min_max [vehX] servsX hoyX statEjemplo (by decide)

unseal Rat.mul Rat.add Rat.sub Rat.inv in
/-- Counterexample to C10 as stated: on `servsNulo` every date parses, a
prediction row is produced for plate N, and the most recent service (day
150) exists but its odometer is null, so the merged `km_ultimo_service`
column is null and the line-149 `fillna` substitutes the current odometer
(2000): the odometer fallback IS reachable. -/
theorem c10_contraejemplo_km_nulo :
    ((predecir_proximos_mantenimientos [vehNulo] servsNulo 200 5000 180).map
        (fun r => (r.patente, r.km_ultimo_service, r.km_actual)) = [("N", 2000, 2000)])
    ∧ kmUltimoRaw servsNulo "N" = none
    ∧ (ultimoService servsNulo "N").map (fun s => s.fecha) = some 150 := by
  decide

/-- Claim C10 as amended: every produced prediction row belongs to a plate
with at least one service record, so the merged last-service date is always
present and the today-for-missing-date fallback of line 148 is unreachable
(the odometer fallback of line 149 remains reachable, per the
counterexample). -/
theorem c10_fecha_fallback_inalcanzable (vehiculos : List Vehiculo)
    (services : List Service) (hoy : Int) (umbral_km : ℚ) (umbral_dias : Int)
    (r : PredRow)
    (h : r ∈ predecir_proximos_mantenimientos vehiculos services hoy umbral_km umbral_dias) :
    (∃ s ∈ services, s.patente = r.patente)
    ∧ ∃ u, ultimoService services r.patente = some u := by
  rcases mem_predecir h with ⟨st, hst, hb⟩
  rcases mem_analizar hst with ⟨p, hp⟩
  rcases buildPred_inv hb with ⟨-, hpat, -⟩
  obtain ⟨q, qs, -, hpp, -, -, -⟩ := statDe_inv hp
  rcases statDe_tiene_service hp with ⟨s, hs, hsp⟩
  have hrp : r.patente = p := by rw [hpat, hpp]
  constructor
  · exact ⟨s, hs, by rw [hrp]; exact hsp⟩
  · rw [hrp]
    exact ultimoService_some hs hsp

unseal Rat.mul Rat.add Rat.sub Rat.inv in
/-- Witness for the amended C10 on the Scenario A fleet. -/
theorem c10_testigo :
    (∃ s ∈ servsX, s.patente = predEjemplo.patente)
    ∧ ∃ u, ultimoService servsX predEjemplo.patente = some u :=
  c10_fecha_fallback_inalcanzable [vehX] servsX hoyX 5000 180 predEjemplo (by decide)
